import Mathlib

/-!
Shallow Lean embedding of the gameplay logic of the HCMUS-Game repository
(a console T-Rex runner under `src/game/` and a windowed Pygame runner under
`src/scenes/`), together with theorems settling the frozen claims about it.

Conventions of the embedding:
* Python `int` becomes `ℤ`, Python `float` becomes `ℚ` (exact rational
  arithmetic standing in for IEEE doubles; no claim below depends on float
  rounding), Python `bool` becomes `Bool`.
* A Python method that can raise is embedded as a function returning the
  mutated object paired with a `PyResult`: mutations performed before the
  raise are kept, mirroring the fact that a Python exception leaves the
  partially mutated object behind.
* Python dicts (insertion ordered) become association lists
  `List (String × ℚ)`.
* `int(q)` (truncation toward zero) is `pyInt`.
-/

/-- Outcome of a Python call in this embedding: either a normal return value
or an `AttributeError` raised while reading the named missing attribute. -/
inductive PyResult (α : Type) where
  | ok (val : α)
  | attributeError (missing : String)
deriving DecidableEq, Repr

/-- Python `int(q)` on a float: truncation toward zero. -/
def pyInt (q : ℚ) : ℤ :=
  if q < 0 then -((-q).floor) else q.floor

/-! ## Console game: `src/game/entities/game_object.py` -/

/-- The state of `GameObject` (src/game/entities/game_object.py, `__init__`,
lines 20-34) as far as geometry and collision are concerned; `_sprite` is
irrelevant to `check_collision` and omitted here. -/
structure GameObj where
  x : ℤ
  y : ℤ
  width : ℤ
  height : ℤ
  active : Bool
deriving DecidableEq, Repr

/-- `GameObject.check_collision` (src/game/entities/game_object.py lines
98-117): returns False unless both objects are active, then the standard
half-open axis-aligned bounding-box overlap test. -/
def GameObj.check_collision (s other : GameObj) : Bool :=
  if ¬ (s.active = true ∧ other.active = true) then false
  else
    decide (s.x < other.x + other.width ∧ s.x + s.width > other.x ∧
            s.y < other.y + other.height ∧ s.y + s.height > other.y)

/-! ## Console game: `src/game/entities/player.py` -/

/-- `PlayerState` enum (src/game/entities/player.py lines 12-16). -/
inductive PlayerState where
  | running
  | jumping
  | ducking
deriving DecidableEq, Repr

/-- `Player.JUMP_HEIGHT` (unused by the physics). -/
def JUMP_HEIGHT : ℤ := 6

/-- `Player.GRAVITY` (src/game/entities/player.py line 32). -/
def GRAVITY : ℤ := 1

/-- `Player.JUMP_VELOCITY` (src/game/entities/player.py line 33). -/
def JUMP_VELOCITY : ℤ := -6

/-- `Player.RUN_SPRITES` (src/game/entities/player.py line 36). -/
def RUN_SPRITES : List String := ["🦕", "🦖", "🦴"]

/-- `Player.JUMP_SPRITES` (src/game/entities/player.py line 37). -/
def JUMP_SPRITES : List String := ["🦅", "✈️"]

/-- `Player.DUCK_SPRITES` (src/game/entities/player.py line 38). Note the
class defines only this plural name; the singular `DUCK_SPRITE` referenced
by `Player.duck` (line 116) does not exist anywhere in the class hierarchy. -/
def DUCK_SPRITES : List String := ["🐊", "🐍"]

/-- `Player.CELEBRATION_SPRITES` (src/game/entities/player.py line 39). -/
def CELEBRATION_SPRITES : List String := ["🎉", "🏆", "⭐"]

/-- The attribute state a `Player` object holds after `Player.__init__`
(src/game/entities/player.py lines 41-76).  `_animation_speed` is assigned
0.3 at line 60 and then reassigned 10 at line 72, so the surviving value is
10; `_max_jumps`, `_jumps_performed`, `_ducks_performed`, `_animation_frame`
and `_animation_timer` are retained for faithfulness although no embedded
operation reads them. -/
structure Player where
  x : ℤ
  y : ℤ
  sprite : String
  active : Bool
  width : ℤ
  height : ℤ
  state : PlayerState
  groundY : ℤ
  velocityY : ℤ
  jumpCount : ℤ
  maxJumps : ℤ
  animationTime : ℚ
  animationSpeed : ℚ
  spriteIndex : ℕ
  celebrationTimer : ℤ
  jumpsPerformed : ℤ
  ducksPerformed : ℤ
  distanceTraveled : ℚ
deriving DecidableEq, Repr

/-- `Player.__init__(x, ground_y)` (src/game/entities/player.py lines 41-76,
on top of `GameObject.__init__`): starts running on the ground with sprite
`RUN_SPRITES[0]`, a 2x2 box, zero vertical velocity. -/
def Player.init (x groundY : ℤ) : Player where
  x := x
  y := groundY
  sprite := RUN_SPRITES.getD 0 ""
  active := true
  width := 2
  height := 2
  state := .running
  groundY := groundY
  velocityY := 0
  jumpCount := 0
  maxJumps := 1
  animationTime := 0
  animationSpeed := 10
  spriteIndex := 0
  celebrationTimer := 0
  jumpsPerformed := 0
  ducksPerformed := 0
  distanceTraveled := 0

/-- `Player.is_on_ground` property (src/game/entities/player.py lines 88-91). -/
def Player.is_on_ground (p : Player) : Bool :=
  decide (p.y ≥ p.groundY)

/-- `Player.jump` (src/game/entities/player.py lines 93-105): succeeds only
when running and on the ground; otherwise returns False with no mutation.
The method contains no attribute access that can fail, so it is total. -/
def Player.jump (p : Player) : Player × Bool :=
  if p.state = .running ∧ p.is_on_ground = true then
    ({ p with state := .jumping, velocityY := JUMP_VELOCITY,
              sprite := JUMP_SPRITES.getD 0 "" }, true)
  else (p, false)

/-- `Player.duck` (src/game/entities/player.py lines 107-121).  In the
Running/Jumping branch the source first sets `self._state = DUCKING`
(line 115) and then evaluates `self._sprite = self.DUCK_SPRITE` (line 116);
the class only defines `DUCK_SPRITES`, so this attribute read raises
`AttributeError` and lines 117-120 (height reduction, ground re-anchor,
`return True`) are never reached.  The embedding returns the object as
mutated up to the raise. -/
def Player.duck (p : Player) : Player × PyResult Bool :=
  if p.state = .running ∨ p.state = .jumping then
    ({ p with state := .ducking }, .attributeError "DUCK_SPRITE")
  else (p, .ok false)

/-- `Player.stop_ducking` (src/game/entities/player.py lines 123-135). -/
def Player.stop_ducking (p : Player) : Player × Bool :=
  if p.state = .ducking ∧ p.is_on_ground = true then
    ({ p with state := .running, height := 2, y := p.groundY - 1 }, true)
  else (p, false)

/-- `Player._update_physics` (src/game/entities/player.py lines 149-161):
while Jumping, gravity accumulates into the velocity, the velocity
integrates into y, and `y >= ground_y` clamps to the ground, zeroes the
velocity, and transitions back to Running. -/
def Player.update_physics (p : Player) : Player :=
  if p.state = .jumping then
    let vy := p.velocityY + GRAVITY
    let y := p.y + vy
    if y ≥ p.groundY then
      { p with y := p.groundY, velocityY := 0, state := .running, jumpCount := 0 }
    else
      { p with y := y, velocityY := vy }
  else p

/-- `Player._update_enhanced_animation` (src/game/entities/player.py lines
163-186): advances the animation clock, then picks a sprite from the
celebration or state-specific sprite table. -/
def Player.update_enhanced_animation (p : Player) : Player :=
  let t := p.animationTime + p.animationSpeed
  if p.celebrationTimer > 0 then
    { p with animationTime := t, celebrationTimer := p.celebrationTimer - 1,
             sprite := CELEBRATION_SPRITES.getD
               ((pyInt (t * 3)).toNat % CELEBRATION_SPRITES.length) "" }
  else
    match p.state with
    | .running =>
        let i := (pyInt (t * 2)).toNat % RUN_SPRITES.length
        { p with animationTime := t, spriteIndex := i,
                 sprite := RUN_SPRITES.getD i "" }
    | .jumping =>
        { p with animationTime := t,
                 sprite := if p.velocityY < 0 then JUMP_SPRITES.getD 0 ""
                           else JUMP_SPRITES.getD 1 "" }
    | .ducking =>
        let i := (pyInt (t * 4)).toNat % DUCK_SPRITES.length
        { p with animationTime := t, spriteIndex := i,
                 sprite := DUCK_SPRITES.getD i "" }

/-- `Player._update_sprite` (src/game/entities/player.py lines 188-190):
a legacy `pass`, i.e. the identity. -/
def Player.update_sprite (p : Player) : Player := p

/-- `Player._update_stats` (src/game/entities/player.py lines 192-195). -/
def Player.update_stats (p : Player) : Player :=
  if p.state = .running then
    { p with distanceTraveled := p.distanceTraveled + 1/10 }
  else p

/-- `Player.update` (src/game/entities/player.py lines 137-147): physics,
then enhanced animation, then the legacy sprite no-op, then stats, in
source order on the same object. -/
def Player.update (p : Player) : Player :=
  p.update_physics.update_enhanced_animation.update_sprite.update_stats

/-- The players reachable from construction through the public mutators the
console game invokes (`jump`, `duck`, `stop_ducking`, `update`).  For `duck`
the object mutated up to the `AttributeError` is retained, since in Python
the object survives the raise. -/
inductive Player.Reachable : Player → Prop where
  | init (x groundY : ℤ) : Player.Reachable (Player.init x groundY)
  | jump {p : Player} : Player.Reachable p → Player.Reachable p.jump.1
  | duck {p : Player} : Player.Reachable p → Player.Reachable p.duck.1
  | stop_ducking {p : Player} : Player.Reachable p → Player.Reachable p.stop_ducking.1
  | update {p : Player} : Player.Reachable p → Player.Reachable p.update

/-! ## Console game: `src/game/entities/obstacle.py`, class `Bird`

The `Bird` class body defines `move_left` twice (lines 245-247 and 267-274)
and `update` twice (lines 222-243 and 276-285).  Python binds the later
definition of each name, so the effective methods are `move_left` at lines
267-274 and `update` at lines 276-285. -/

/-- The attribute state of a `Bird` after `Bird.__init__` (src/game/entities/
obstacle.py lines 186-210).  The attributes `_bob_offset`, `_bob_speed` and
`_bob_amplitude` read by the effective `move_left` are never assigned
anywhere, which is the essence of the structure: they are absent. -/
structure Bird where
  x : ℤ
  y : ℤ
  sprite : String
  active : Bool
  width : ℤ
  height : ℤ
  speed : ℤ
  originalX : ℤ
  originalY : ℤ
  birdType : String
  flightPattern : String
  animationTime : ℚ
  spriteIndex : ℕ
  animationSpeed : ℚ
deriving DecidableEq, Repr

/-- `Bird.SPRITES` dict (src/game/entities/obstacle.py lines 172-177); the
source file contains mojibake replacement characters, reproduced as is. -/
def BIRD_SPRITES (birdType : String) : Option (List String) :=
  if birdType = "eagle" then some ["🦅", "🦅"]
  else if birdType = "sparrow" then some ["🐦", "�"]
  else if birdType = "dove" then some ["�🕊️", "🕊"]
  else if birdType = "pterodactyl" then some ["🦕", "🦖"]
  else none

/-- `Bird.__init__(x, y, bird_type, flight_pattern)` (src/game/entities/
obstacle.py lines 186-210 on top of `Obstacle.__init__` and
`GameObject.__init__`). -/
def Bird.init (x y : ℤ) (birdType flightPattern : String) : Bird :=
  let sprites := (BIRD_SPRITES birdType).getD ["🐦", "�"]
  { x := x
    y := y
    sprite := sprites.getD 0 ""
    active := true
    width := 1
    height := 1
    speed := 1
    originalX := x
    originalY := y
    birdType := birdType
    flightPattern := flightPattern
    animationTime := 0
    spriteIndex := 0
    animationSpeed := 1/5 }

/-- The effective `Bird.move_left` (src/game/entities/obstacle.py lines
267-274, shadowing the earlier definition at lines 245-247): it decrements
`_x` by `_speed`, then evaluates `self._bob_offset += self._bob_speed`.
`Bird.__init__` never assigns `_bob_offset` (nor `_bob_speed` or
`_bob_amplitude`), so the read raises `AttributeError` right after the x
update. -/
def Bird.move_left (b : Bird) : Bird × PyResult Unit :=
  ({ b with x := b.x - b.speed }, .attributeError "_bob_offset")

/-- `Obstacle.update` (src/game/entities/obstacle.py lines 62-72) as
inherited by `Bird`: calls `self.move_left()` and, if that returns, then
deactivates the obstacle once fully off screen.  A raise from `move_left`
propagates. -/
def Bird.obstacle_update (b : Bird) : Bird × PyResult Unit :=
  match b.move_left with
  | (b1, .ok _) =>
      (if b1.x + b1.width < 0 then { b1 with active := false } else b1, .ok ())
  | (b1, .attributeError m) => (b1, .attributeError m)

/-- The effective `Bird.update` (src/game/entities/obstacle.py lines
276-285, shadowing the earlier definition at lines 222-243): it calls
`super().update()` and nothing else. -/
def Bird.update (b : Bird) : Bird × PyResult Unit :=
  b.obstacle_update

/-! ## Windowed game: `src/scenes/` -/

/-- A pygame `Rect` (integer coordinates, as pygame truncates float
constructor arguments toward zero). -/
structure PyRect where
  x : ℤ
  y : ℤ
  w : ℤ
  h : ℤ
deriving DecidableEq, Repr

/-- `pygame.Rect.inflate(dx, dy)`: grows the rectangle about its center
(integer halving on the offsets). -/
def PyRect.inflate (r : PyRect) (dx dy : ℤ) : PyRect :=
  ⟨r.x - dx / 2, r.y - dy / 2, r.w + dx, r.h + dy⟩

/-- `pygame.Rect.colliderect`: strict axis-aligned overlap test. -/
def PyRect.colliderect (a b : PyRect) : Bool :=
  decide (a.x < b.x + b.w ∧ b.x < a.x + a.w ∧ a.y < b.y + b.h ∧ b.y < a.y + a.h)

/-- An obstacle of the windowed game as `TokenManager.is_safe_spawn_position`
sees it: only its (possibly absent) pygame rect matters
(src/scenes/obstacles.py, `ObstacleManager.obstacles` entries). -/
structure WObstacle where
  rect : Option PyRect
deriving DecidableEq, Repr

/-- `TokenManager.min_distance_from_obstacles` (src/scenes/tokens.py line 176). -/
def min_distance_from_obstacles : ℤ := 150

/-- `TokenManager.vertical_safe_zone` (src/scenes/tokens.py line 177). -/
def vertical_safe_zone : ℤ := 80

/-- `TokenManager.is_safe_spawn_position(x, y, obstacle_manager)`
(src/scenes/tokens.py lines 216-237): with no obstacle manager the position
is unconditionally safe; otherwise a 40x40 rect around `(x, y)` must not
touch any obstacle rect inflated by twice the horizontal and vertical safety
margins.  The Python guard `if obstacle.rect:` is false for a missing rect
and for a pygame rect of zero width or height. -/
def is_safe_spawn_position (x y : ℚ) (om : Option (List WObstacle)) : Bool :=
  match om with
  | none => true
  | some obstacles =>
      let tokenRect : PyRect := ⟨pyInt (x - 20), pyInt (y - 20), 40, 40⟩
      obstacles.all fun ob =>
        match ob.rect with
        | none => true
        | some r =>
            if r.w ≠ 0 ∧ r.h ≠ 0 then
              ¬ tokenRect.colliderect
                  (r.inflate (min_distance_from_obstacles * 2) (vertical_safe_zone * 2))
            else true

/-- One random draw consumed by an attempt of `TokenManager.spawn_coin`:
the value of `random.randint(...)` and the height picked by
`random.choice(self.token_heights)`. -/
structure Draw where
  r : ℤ
  height : ℚ
deriving DecidableEq, Repr

/-- The attempt loop of `TokenManager.spawn_coin` (src/scenes/tokens.py
lines 244-256): up to `max_attempts = 10` candidate positions
`x = camera_x + screen_width + randint(100, 300)` are tried in order; the
first one accepted by `obstacle_manager is None or is_safe_spawn_position`
is committed. -/
def spawn_coin_attempts (cameraX screenWidth : ℚ) (om : Option (List WObstacle))
    (draws : List Draw) : Option (ℚ × ℚ) :=
  (draws.take 10).findSome? fun d =>
    let x := cameraX + screenWidth + (d.r : ℚ)
    if om.isNone || is_safe_spawn_position x d.height om then some (x, d.height)
    else none

/-- `TokenManager.spawn_coin(camera_x, obstacle_manager)` (src/scenes/
tokens.py lines 239-262): commit the first accepted attempt, or fall back to
`x = camera_x + screen_width + randint(400, 600)` after 10 failed attempts.
In every case exactly one coin token is appended; the function never refuses
to spawn.  The random draws are passed in explicitly (`draws` for the
attempt loop, `fallback` for the final draw). -/
def spawn_coin (cameraX screenWidth : ℚ) (om : Option (List WObstacle))
    (draws : List Draw) (fallback : Draw) : ℚ × ℚ :=
  match spawn_coin_attempts cameraX screenWidth om draws with
  | some pos => pos
  | none => (cameraX + screenWidth + (fallback.r : ℚ), fallback.height)

/-- The coin spawn as actually wired into the windowed game:
`MainGame.update` (src/scenes/main_game.py line 227) calls
`self.token_manager.update(delta_time, self.speed, self.score,
self.difficulty, self.camera_x)` WITHOUT the trailing `obstacle_manager`
argument of `TokenManager.update` (src/scenes/tokens.py line 179), so the
parameter defaults to `None` and `spawn_coin` receives `None`. -/
def main_game_spawn_coin (cameraX screenWidth : ℚ)
    (draws : List Draw) (fallback : Draw) : ℚ × ℚ :=
  spawn_coin cameraX screenWidth none draws fallback

/-! ### Windowed game state: `src/scenes/main_game.py` -/

/-- `MainGame.START_SPEED` (src/scenes/main_game.py line 19). -/
def START_SPEED : ℚ := 200

/-- `MainGame.MAX_SPEED` (src/scenes/main_game.py line 20). -/
def MAX_SPEED : ℚ := 1000

/-- `MainGame.SPEED_MODIFIER` (src/scenes/main_game.py line 21). -/
def SPEED_MODIFIER : ℚ := 50

/-- `MainGame.MAX_DIFFICULTY` (src/scenes/main_game.py line 23). -/
def MAX_DIFFICULTY : ℤ := 2

/-- Python ordered-dict membership test `k in d` for the powerup dict. -/
def dictContains (d : List (String × ℚ)) (k : String) : Bool :=
  d.any fun kv => kv.1 == k

/-- Python ordered-dict lookup `d.get(k)` / `d[k]` for the powerup dict. -/
def dictGet? (d : List (String × ℚ)) (k : String) : Option ℚ :=
  (d.find? fun kv => kv.1 == k).map Prod.snd

/-- Python ordered-dict assignment `d[k] = v`: overwrite in place when the
key is present, otherwise append at the end. -/
def dictSet (d : List (String × ℚ)) (k : String) (v : ℚ) : List (String × ℚ) :=
  if dictContains d k then d.map fun kv => if kv.1 == k then (k, v) else kv
  else d ++ [(k, v)]

/-- The gameplay fields of `MainGame` (src/scenes/main_game.py `__init__` /
`new_game`) that the score, speed, difficulty and powerup logic reads and
writes.  `active_powerups` is the insertion-ordered dict from effect name to
remaining seconds. -/
structure GState where
  score : ℚ
  tokenScore : ℤ
  highScore : ℤ
  speed : ℚ
  baseSpeed : ℚ
  difficulty : ℤ
  cameraX : ℚ
  dinoX : ℚ
  activePowerups : List (String × ℚ)
  coinMultiplier : ℤ
  gameRunning : Bool
deriving DecidableEq, Repr

/-- `MainGame.update_powerups(delta_time)` (src/scenes/main_game.py lines
267-285): every remaining time is decremented by `delta_time`; the entries
that reach `<= 0` are collected and deleted after the loop, and an expired
`"doublegold"` resets `coin_multiplier` to 1 (an expired `"halfspeed"` only
prints). -/
def GState.update_powerups (s : GState) (dt : ℚ) : GState :=
  let stepped := s.activePowerups.map fun kv => (kv.1, kv.2 - dt)
  let expired := (stepped.filter fun kv => decide (kv.2 ≤ 0)).map Prod.fst
  let remaining := stepped.filter fun kv => decide (0 < kv.2)
  { s with activePowerups := remaining,
           coinMultiplier :=
             if expired.any (fun n => n == "doublegold") then 1
             else s.coinMultiplier }

/-- `MainGame.activate_powerup(effect, duration, powerup_type)`
(src/scenes/main_game.py lines 287-295): `"halfspeed"` records its duration;
`"doublegold"` records its duration and sets `coin_multiplier = 2`; any
other effect string (in particular `"godmode"`) matches no branch and the
method does nothing.  The `powerup_type` argument is only printed. -/
def GState.activate_powerup (s : GState) (effect : String) (duration : ℚ)
    (_ptype : String) : GState :=
  if effect = "halfspeed" then
    { s with activePowerups := dictSet s.activePowerups "halfspeed" duration }
  else if effect = "doublegold" then
    { s with activePowerups := dictSet s.activePowerups "doublegold" duration,
             coinMultiplier := 2 }
  else s

/-- The scoring portion of `MainGame.update(delta_time)` (src/scenes/
main_game.py lines 198-221): when `game_running`, update the powerup timers,
recompute `base_speed` from the score (clamped at `MAX_SPEED`), derive the
movement `speed` (scaled by 0.7 while `"halfspeed"` is active), derive the
clamped `difficulty`, move the camera, and add `base_speed * delta_time` to
the score.  The rest of `MainGame.update` (lines 223-249: entity updates,
token collection, obstacle collision handling) contains no assignment to
`score`, `base_speed`, `speed` or `difficulty`, so after a full `update`
call these fields hold exactly the values computed here.  The float literal
0.7 is modelled as the rational 7/10. -/
def GState.update_scoring (s : GState) (dt : ℚ) : GState :=
  if s.gameRunning then
    let s1 := s.update_powerups dt
    let bs0 := START_SPEED + s1.score / SPEED_MODIFIER
    let bs := if bs0 > MAX_SPEED then MAX_SPEED else bs0
    let spd := if dictContains s1.activePowerups "halfspeed" then bs * (7/10) else bs
    let diff0 := pyInt (s1.score / SPEED_MODIFIER)
    let diff := if diff0 > MAX_DIFFICULTY then MAX_DIFFICULTY else diff0
    { s1 with baseSpeed := bs, speed := spd, difficulty := diff,
              cameraX := s1.dinoX - 200,
              score := s1.score + bs * dt }
  else s

/-- The clamped base speed `MainGame.update` computes from a score
(src/scenes/main_game.py lines 203-205). -/
def baseSpeedOf (score : ℚ) : ℚ :=
  let bs0 := START_SPEED + score / SPEED_MODIFIER
  if bs0 > MAX_SPEED then MAX_SPEED else bs0

/-! ### Tokens: `src/scenes/tokens.py`, class `Token` -/

/-- The payload fields `Token.__init__(x, y, token_type, scale)` assigns
(src/scenes/tokens.py lines 10-41).  For a `"coin"` no `effect_duration`
attribute is assigned; `Token.collect` reads it through
`getattr(self, "effect_duration", 0)`, so the value observed is 0 and we
store that.  Only the four listed types are ever constructed by
`TokenManager`. -/
structure Token where
  x : ℚ
  y : ℚ
  tokenType : String
  value : ℤ
  effect : Option String
  effectDuration : ℚ
  collected : Bool
  visible : Bool
deriving DecidableEq, Repr

/-- `Token.__init__` type dispatch (src/scenes/tokens.py lines 14-29). -/
def Token.init (x y : ℚ) (tokenType : String) : Token :=
  let (value, effect, duration) :=
    if tokenType = "coin" then ((1 : ℤ), (none : Option String), (0 : ℚ))
    else if tokenType = "halfspeed" then (0, some "halfspeed", 10)
    else if tokenType = "doublegold" then (0, some "doublegold", 10)
    else if tokenType = "godmode" then (0, some "godmode", 8)
    else (0, none, 0)
  { x := x, y := y, tokenType := tokenType, value := value, effect := effect,
    effectDuration := duration, collected := false, visible := true }

/-- The record `Token.collect` returns (src/scenes/tokens.py lines 124-135). -/
structure CollectedData where
  value : ℤ
  effect : Option String
  duration : ℚ
  ctype : String
deriving DecidableEq, Repr

/-- `Token.collect` (src/scenes/tokens.py lines 124-135): marks the token
collected and invisible and reports its value, effect, duration and type. -/
def Token.collect (t : Token) : Token × CollectedData :=
  ({ t with collected := true, visible := false },
   { value := t.value, effect := t.effect, duration := t.effectDuration,
     ctype := t.tokenType })

/-! ### High-score persistence -/

/-- What `json.load` can hand back to `MainGame.load_high_score`, with
object field values restricted to the integers `MainGame.save_high_score`
writes (src/scenes/main_game.py lines 84-91). -/
inductive JsonVal where
  | jobj (fields : List (String × ℤ))
  | jnum (n : ℤ)
  | jarr
  | jstr (s : String)
  | jbool (b : Bool)
  | jnull
deriving DecidableEq, Repr

/-- The state of the `high_score.json` save file as `MainGame.load_high_score`
observes it: absent, present but rejected by `json.load`
(`json.JSONDecodeError`), or successfully parsed JSON. -/
inductive SaveFile where
  | missing
  | notJson
  | asJson (v : JsonVal)
deriving DecidableEq, Repr

/-- `MainGame.load_high_score` (src/scenes/main_game.py lines 72-82): a
missing file returns 0 (the `os.path.exists` guard), a `json.JSONDecodeError`
is caught and falls through to `return 0`, a parsed object answers
`data.get("high_score", 0)` — and any parsed non-object (number, array,
string, boolean, null) reaches `data.get` on a value with no `get`
attribute, raising an `AttributeError` that nothing catches (the `except`
clause only lists `json.JSONDecodeError` and `FileNotFoundError`). -/
def load_high_score : SaveFile → PyResult ℤ
  | .missing => .ok 0
  | .notJson => .ok 0
  | .asJson (.jobj fields) =>
      .ok (((fields.find? fun kv => kv.1 == "high_score").map Prod.snd).getD 0)
  | .asJson _ => .attributeError "get"

/-- `MainGame.check_high_score` (src/scenes/main_game.py lines 261-265):
returns the new stored value and whether `save_high_score` was invoked —
the file is rewritten (with `int(score)`) exactly when the running score
strictly exceeds the stored value. -/
def check_high_score (score : ℚ) (highScore : ℤ) : ℤ × Bool :=
  if score > (highScore : ℚ) then (pyInt score, true) else (highScore, false)

/-- The state of the console `high_score.txt` file as
`GameEngine._load_high_score` observes it: absent, or present with
`int(content.strip())` either failing (`ValueError`) or producing a value. -/
inductive TxtFile where
  | missing
  | notAnInt
  | holds (n : ℤ)
deriving DecidableEq, Repr

/-- `GameEngine._load_high_score` (src/game/core/game_engine.py lines
557-563): both `FileNotFoundError` and `ValueError` are caught and default
the high score to 0. -/
def engine_load_high_score : TxtFile → ℤ
  | .missing => 0
  | .notAnInt => 0
  | .holds n => n

/-! ## Concrete inputs used by the witnesses -/

/-- A player that has just jumped from the ground: state Jumping. -/
def jumping_player : Player := (Player.init 10 18).jump.1

/-- A player one tick away from landing: constructed at ground level 10,
jumped, then updated ten times, leaving it Jumping at `y = 5` with
`velocity_y = 4`, so the next physics step integrates to `y = 10 >= ground_y`. -/
def landing_player : Player :=
  ((((((((((Player.init 5 10).jump.1.update).update).update).update).update).update).update).update).update).update

/-- An inactive game object geometrically overlapping `active_box`. -/
def inactive_box : GameObj := ⟨0, 0, 5, 5, false⟩

/-- An active game object geometrically overlapping `inactive_box`. -/
def active_box : GameObj := ⟨1, 1, 5, 5, true⟩

/-- A running game state with the halfspeed effect active. -/
def gs_half : GState :=
  { score := 100, tokenScore := 0, highScore := 0, speed := 140,
    baseSpeed := 200, difficulty := 0, cameraX := 0, dinoX := 150,
    activePowerups := [("halfspeed", 5)], coinMultiplier := 1,
    gameRunning := true }

/-- The same state without the halfspeed effect. -/
def gs_plain : GState := { gs_half with activePowerups := [], speed := 200 }

/-- A running game state with the doublegold effect active at multiplier 2. -/
def gs_gold : GState :=
  { gs_half with activePowerups := [("doublegold", 3)], coinMultiplier := 2,
                 speed := 200 }

/-! ## Helper lemmas about the console player -/

lemma Player.anim_preserves (p : Player) :
    p.update_enhanced_animation.y = p.y ∧
    p.update_enhanced_animation.groundY = p.groundY ∧
    p.update_enhanced_animation.velocityY = p.velocityY ∧
    p.update_enhanced_animation.state = p.state := by
  unfold Player.update_enhanced_animation
  split
  · exact ⟨rfl, rfl, rfl, rfl⟩
  · cases p.state <;> exact ⟨rfl, rfl, rfl, rfl⟩

lemma Player.stats_preserves (p : Player) :
    p.update_stats.y = p.y ∧ p.update_stats.groundY = p.groundY ∧
    p.update_stats.velocityY = p.velocityY ∧ p.update_stats.state = p.state := by
  unfold Player.update_stats
  split <;> exact ⟨rfl, rfl, rfl, rfl⟩

lemma Player.update_fields (p : Player) :
    p.update.y = p.update_physics.y ∧
    p.update.groundY = p.update_physics.groundY ∧
    p.update.velocityY = p.update_physics.velocityY ∧
    p.update.state = p.update_physics.state := by
  unfold Player.update Player.update_sprite
  obtain ⟨s1, s2, s3, s4⟩ := Player.stats_preserves p.update_physics.update_enhanced_animation
  obtain ⟨a1, a2, a3, a4⟩ := Player.anim_preserves p.update_physics
  exact ⟨s1.trans a1, s2.trans a2, s3.trans a3, s4.trans a4⟩

lemma Player.physics_groundY (p : Player) :
    p.update_physics.groundY = p.groundY := by
  unfold Player.update_physics
  split
  · dsimp only
    split <;> rfl
  · rfl

lemma Player.physics_y_le (p : Player) (h : p.y ≤ p.groundY) :
    p.update_physics.y ≤ p.update_physics.groundY := by
  unfold Player.update_physics
  split
  · dsimp only
    split
    · simp
    · rename_i hlt
      simp only [ge_iff_le, not_le] at hlt
      simpa using le_of_lt hlt
  · exact h

/-- Invariant: every player the console game can reach satisfies
`y ≤ ground_y`. -/
lemma Player.Reachable.y_le_groundY {p : Player} (hp : p.Reachable) :
    p.y ≤ p.groundY := by
  induction hp with
  | init x groundY => simp [Player.init]
  | jump h ih =>
      unfold Player.jump
      split <;> simpa using ih
  | duck h ih =>
      unfold Player.duck
      split <;> simpa using ih
  | stop_ducking h ih =>
      unfold Player.stop_ducking
      split
      · simp
      · simpa using ih
  | update h ih =>
      obtain ⟨hy, hg, -, -⟩ := Player.update_fields _
      rw [hy, hg]
      exact Player.physics_y_le _ ih


/-! ## Helper lemmas about the powerup dictionary -/

lemma dictGet?_overwrite (d : List (String × ℚ)) (k : String) (v : ℚ) :
    dictGet? (d.map fun kv => if kv.1 == k then (k, v) else kv) k =
      if dictContains d k then some v else none := by
  induction d with
  | nil => rfl
  | cons a tl ih =>
    unfold dictGet? dictContains at ih ⊢
    by_cases ha : (a.1 == k) = true
    · rw [List.map_cons, if_pos ha,
        @List.find?_cons_of_pos _ (fun kv => kv.1 == k) (k, v) _ (by simp),
        List.any_cons, ha]
      simp
    · have ha' : (a.1 == k) = false := by simpa using ha
      rw [List.map_cons, if_neg ha,
        @List.find?_cons_of_neg _ (fun kv => kv.1 == k) a _ ha,
        List.any_cons, ha', ih, Bool.false_or]

lemma dictGet?_append_single (d : List (String × ℚ)) (k : String) (v : ℚ)
    (h : dictContains d k = false) :
    dictGet? (d ++ [(k, v)]) k = some v := by
  induction d with
  | nil => simp [dictGet?]
  | cons a tl ih =>
    simp only [dictContains, List.any_cons, Bool.or_eq_false_iff] at h
    rw [List.cons_append]
    unfold dictGet?
    rw [@List.find?_cons_of_neg _ (fun kv => kv.1 == k) a _ (by simp [h.1])]
    exact ih (by simp [dictContains, h.2])

lemma dictGet?_dictSet_self (d : List (String × ℚ)) (k : String) (v : ℚ) :
    dictGet? (dictSet d k v) k = some v := by
  unfold dictSet
  by_cases hc : dictContains d k = true
  · rw [if_pos hc, dictGet?_overwrite, if_pos hc]
  · rw [if_neg hc]
    exact dictGet?_append_single d k v (by simpa using hc)

lemma keys_overwrite (d : List (String × ℚ)) (k : String) (v : ℚ) :
    (d.map fun kv => if kv.1 == k then (k, v) else kv).map Prod.fst =
      d.map Prod.fst := by
  induction d with
  | nil => rfl
  | cons a tl ih =>
    by_cases ha : (a.1 == k) = true
    · have hak : a.1 = k := by simpa using ha
      rw [List.map_cons, if_pos ha, List.map_cons, List.map_cons, ih]
      rw [show ((k, v).1 : String) = a.1 from hak.symm]
    · rw [List.map_cons, if_neg ha, List.map_cons, List.map_cons, ih]

lemma dictSet_keys_nodup (d : List (String × ℚ)) (k : String) (v : ℚ)
    (h : (d.map Prod.fst).Nodup) :
    ((dictSet d k v).map Prod.fst).Nodup := by
  unfold dictSet
  by_cases hc : dictContains d k = true
  · rw [if_pos hc, keys_overwrite]
    exact h
  · rw [if_neg hc, List.map_append]
    have hk : k ∉ d.map Prod.fst := by
      intro hmem
      obtain ⟨kv, hkv, hfst⟩ := List.mem_map.mp hmem
      have : dictContains d k = true := by
        unfold dictContains
        rw [List.any_eq_true]
        exact ⟨kv, hkv, by simp [hfst]⟩
      exact hc this
    refine h.append (List.nodup_singleton k) ?_
    intro a ha hb
    simp only [List.map_cons, List.map_nil, List.mem_singleton] at hb
    exact hk (hb ▸ ha)

lemma keys_map_sub (d : List (String × ℚ)) (dt : ℚ) :
    (d.map fun kv => (kv.1, kv.2 - dt)).map Prod.fst = d.map Prod.fst := by
  rw [List.map_map]
  rfl

lemma find?_map_sub (d : List (String × ℚ)) (k : String) (dt : ℚ) :
    (d.map fun kv => (kv.1, kv.2 - dt)).find? (fun kv => kv.1 == k) =
      (d.find? fun kv => kv.1 == k).map fun kv => (kv.1, kv.2 - dt) := by
  induction d with
  | nil => rfl
  | cons a tl ih =>
    by_cases ha : (a.1 == k) = true
    · rw [List.map_cons,
        @List.find?_cons_of_pos _ (fun kv => kv.1 == k) (a.1, a.2 - dt) _ (by simpa using ha),
        @List.find?_cons_of_pos _ (fun kv => kv.1 == k) a _ ha]
      rfl
    · rw [List.map_cons,
        @List.find?_cons_of_neg _ (fun kv => kv.1 == k) (a.1, a.2 - dt) _ (by simpa using ha),
        @List.find?_cons_of_neg _ (fun kv => kv.1 == k) a _ ha]
      exact ih

lemma find?_filter_of_keys_nodup (l : List (String × ℚ)) (k : String)
    (pr : String × ℚ) (p : String × ℚ → Bool)
    (hnd : (l.map Prod.fst).Nodup)
    (h : l.find? (fun kv => kv.1 == k) = some pr) :
    (l.filter p).find? (fun kv => kv.1 == k) =
      if p pr then some pr else none := by
  induction l with
  | nil => simp at h
  | cons a tl ih =>
    rw [List.map_cons, List.nodup_cons] at hnd
    by_cases ha : (a.1 == k) = true
    · rw [@List.find?_cons_of_pos _ (fun kv => kv.1 == k) a _ ha] at h
      have hpr : a = pr := by injection h
      subst hpr
      have hka : a.1 = k := by simpa using ha
      have hnone : (tl.filter p).find? (fun kv => kv.1 == k) = none := by
        rw [List.find?_eq_none]
        intro x hx hbeq
        have hxk : x.1 = k := by simpa using hbeq
        exact hnd.1 (List.mem_map.mpr ⟨x, List.mem_of_mem_filter hx, hxk.trans hka.symm⟩)
      by_cases hpa : p a = true
      · rw [List.filter_cons_of_pos hpa,
          @List.find?_cons_of_pos _ (fun kv => kv.1 == k) a _ ha, if_pos hpa]
      · rw [List.filter_cons_of_neg (by simpa using hpa), if_neg hpa]
        exact hnone
    · rw [@List.find?_cons_of_neg _ (fun kv => kv.1 == k) a _ ha] at h
      have htail := ih hnd.2 h
      by_cases hpa : p a = true
      · rw [List.filter_cons_of_pos hpa,
          @List.find?_cons_of_neg _ (fun kv => kv.1 == k) a _ ha]
        exact htail
      · rw [List.filter_cons_of_neg (by simpa using hpa)]
        exact htail

lemma update_powerups_activePowerups (s : GState) (dt : ℚ) :
    (s.update_powerups dt).activePowerups =
      (s.activePowerups.map fun kv => (kv.1, kv.2 - dt)).filter
        fun kv => decide (0 < kv.2) := rfl

lemma update_powerups_coinMultiplier (s : GState) (dt : ℚ) :
    (s.update_powerups dt).coinMultiplier =
      if (((s.activePowerups.map fun kv => (kv.1, kv.2 - dt)).filter
            fun kv => decide (kv.2 ≤ 0)).map Prod.fst).any (fun n => n == "doublegold")
      then 1 else s.coinMultiplier := rfl

lemma rat_floor_eq_floor (q : ℚ) : q.floor = ⌊q⌋ := rfl

/-! ## Claims -/

/-- Claim C1: for the console Player, after every reachable call to
`update()` the vertical position never exceeds `ground_y`; and whenever the
jumping physics integration leaves `y + (velocity_y + GRAVITY) >= ground_y`,
`update()` clamps `y` exactly to `ground_y`, zeroes `velocity_y`, and sets
the state to Running. -/
theorem player_update_clamps_to_ground (p : Player) (hp : p.Reachable) :
    p.update.y ≤ p.update.groundY ∧
    (p.state = .jumping → p.groundY ≤ p.y + (p.velocityY + GRAVITY) →
      p.update.y = p.groundY ∧ p.update.velocityY = 0 ∧
      p.update.state = .running) := by
  obtain ⟨hy, hg, hv, hs⟩ := Player.update_fields p
  constructor
  · rw [hy, hg]
    exact Player.physics_y_le p hp.y_le_groundY
  · intro hjump hland
    rw [hy, hg, hv, hs] at *
    unfold Player.update_physics
    rw [if_pos hjump, if_pos (by simpa [ge_iff_le] using hland)]
    exact ⟨rfl, rfl, rfl⟩

set_option maxRecDepth 8000 in
/-- Witness for C1: the concrete player `landing_player` (reachable by a
jump followed by ten updates from `Player.init 5 10`) is Jumping with
`y = 5`, `velocity_y = 4`, so the next update integrates to
`y = 10 >= ground_y` and clamps. -/
theorem player_update_clamps_to_ground_witness :
    landing_player.update.y ≤ landing_player.update.groundY ∧
    landing_player.update.y = landing_player.groundY ∧
    landing_player.update.velocityY = 0 ∧
    landing_player.update.state = .running := by
  have hreach : landing_player.Reachable :=
    (((((((((((Player.Reachable.init 5 10).jump).update).update).update).update).update).update).update).update).update).update
  have h := player_update_clamps_to_ground landing_player hreach
  exact ⟨h.1, h.2 (by decide) (by decide)⟩

/-- Claim C2 (refuted; evidence for the code bug): for EVERY constructed
console `Bird`, the very first `Obstacle.update()` call raises
`AttributeError` on the missing `_bob_offset` attribute (after decrementing
x), because the surviving `move_left` definition reads bobbing attributes
that `Bird.__init__` never creates.  So no sequence of `update()` calls
returns normally, contradicting the claim that update is total. -/
theorem bird_update_always_raises (b : Bird) :
    b.update = ({ b with x := b.x - b.speed }, .attributeError "_bob_offset") := rfl

/-- Claim C3 (refuted; evidence for the code bug): `duck()` on a freshly
constructed (Running) player does not return True with a reduced hitbox: it
raises `AttributeError` on the missing `DUCK_SPRITE` attribute, leaving the
state already switched to Ducking and the hitbox height untouched. -/
theorem duck_raises_attribute_error :
    (Player.init 10 18).duck =
      ({ Player.init 10 18 with state := .ducking }, .attributeError "DUCK_SPRITE") ∧
    (Player.init 10 18).duck.1.height = (Player.init 10 18).height := by
  exact ⟨rfl, rfl⟩

/-- Claim C4: a jump request while the player is already Jumping returns
False and leaves the player object — state, velocity, position and hitbox —
completely unchanged; `jump` is total by construction. -/
theorem jump_refused_while_jumping (p : Player) (h : p.state = .jumping) :
    p.jump = (p, false) := by
  unfold Player.jump
  rw [if_neg]
  rintro ⟨hrun, -⟩
  rw [h] at hrun
  exact absurd hrun (by decide)

/-- Witness for C4 at the concrete Jumping player `jumping_player`. -/
theorem jump_refused_while_jumping_witness :
    jumping_player.jump = (jumping_player, false) :=
  jump_refused_while_jumping jumping_player (by decide)

/-- Claim C5: `GameObject.check_collision` is symmetric, and an inactive
participant forces the result False regardless of geometric overlap. -/
theorem check_collision_symm_and_inactive (a b : GameObj) :
    a.check_collision b = b.check_collision a ∧
    ((a.active = false ∨ b.active = false) → a.check_collision b = false) := by
  constructor
  · unfold GameObj.check_collision
    by_cases ha : a.active = true <;> by_cases hb : b.active = true <;>
      simp [ha, hb]
    ac_rfl
  · rintro (h | h) <;> simp [GameObj.check_collision, h]

/-- Witness for C5: an inactive box overlapping an active box collides in
neither direction. -/
theorem check_collision_symm_and_inactive_witness :
    inactive_box.check_collision active_box = active_box.check_collision inactive_box ∧
    inactive_box.check_collision active_box = false :=
  ⟨(check_collision_symm_and_inactive inactive_box active_box).1,
   (check_collision_symm_and_inactive inactive_box active_box).2 (Or.inl rfl)⟩

/-- Claim C9 (evidence for the code bug, plus the holding parts evaluated):
`MainGame.load_high_score` returns 0 for a missing file and for a file
`json.load` rejects, and reads the stored value from a proper object; but a
save file holding valid JSON that is not an object (e.g. the bare number
123) reaches `data.get` and raises an uncaught `AttributeError`, so the
loading operation is not exception-free on corrupt files.
`check_high_score` rewrites the stored value exactly when the running score
strictly exceeds it, and the console `GameEngine._load_high_score` defaults
to 0 on a missing or non-integer file. -/
theorem high_score_persistence_eval :
    load_high_score .missing = .ok 0 ∧
    load_high_score .notJson = .ok 0 ∧
    load_high_score (.asJson (.jobj [("high_score", 42)])) = .ok 42 ∧
    load_high_score (.asJson (.jnum 123)) = .attributeError "get" ∧
    check_high_score (105 : ℚ) 100 = (105, true) ∧
    check_high_score (100 : ℚ) 100 = (100, false) ∧
    check_high_score (99 : ℚ) 100 = (100, false) ∧
    engine_load_high_score .missing = 0 ∧
    engine_load_high_score .notAnInt = 0 := by
  refine ⟨rfl, rfl, rfl, rfl, ?_, ?_, ?_, rfl, rfl⟩ <;> decide

/-- Claim C10: `MainGame.activate_powerup` with the effect string
`"godmode"` matches neither the halfspeed nor the doublegold branch and
leaves the entire game state — in particular `active_powerups`,
`coin_multiplier` and `speed` — unchanged, even though godmode tokens carry
exactly that effect string (with duration 8) when collected. -/
theorem godmode_powerup_is_noop (s : GState) (d : ℚ) (pt : String) :
    s.activate_powerup "godmode" d pt = s ∧
    (Token.init 0 0 "godmode").effect = some "godmode" ∧
    (Token.init 0 0 "godmode").effectDuration = 8 ∧
    (Token.init 0 0 "godmode").collect.2.effect = some "godmode" := by
  refine ⟨?_, by decide, by decide, by decide⟩
  unfold GState.activate_powerup
  rw [if_neg (by decide), if_neg (by decide)]

/-- Claim C7 (evidence for the code bug): with the obstacle manager absent —
which is what `MainGame.update` line 227 actually passes, since it omits the
`obstacle_manager` argument — `spawn_coin` commits the very first random
position (camera 0, screen width 1152, draw 100 giving x = 1252, height 435)
even though that position fails `is_safe_spawn_position` against an active
obstacle whose inflated rect covers it; the same call WITH the obstacle list
supplied rejects the draw and falls back to x = 1552.  (In both cases a coin
is committed: a spawn request never fails to add a token.) -/
theorem spawn_coin_safety_never_tested :
    main_game_spawn_coin 0 1152 [⟨100, 435⟩] ⟨400, 435⟩ = (1252, 435) ∧
    is_safe_spawn_position 1252 435 (some [⟨some ⟨1240, 420, 20, 20⟩⟩]) = false ∧
    spawn_coin 0 1152 (some [⟨some ⟨1240, 420, 20, 20⟩⟩]) [⟨100, 435⟩] ⟨400, 435⟩ =
      (1552, 435) := by
  refine ⟨?_, ?_, ?_⟩
  · norm_num [main_game_spawn_coin, spawn_coin, spawn_coin_attempts, List.findSome?]
  · norm_num [is_safe_spawn_position, PyRect.colliderect, PyRect.inflate, pyInt,
      rat_floor_eq_floor, min_distance_from_obstacles, vertical_safe_zone]
  · norm_num [spawn_coin, spawn_coin_attempts, List.findSome?, is_safe_spawn_position,
      PyRect.colliderect, PyRect.inflate, pyInt, rat_floor_eq_floor,
      min_distance_from_obstacles, vertical_safe_zone]

/-- Claim C6: while `game_running`, the per-tick score increment of
`MainGame.update` is `base_speed * delta_time`, computed from the score
alone, so two updates from identical scores — one with `"halfspeed"` among
the active powerups, one without — produce identical new scores; and with a
nonnegative `delta_time` (and the always nonnegative score) the score never
decreases. -/
theorem score_independent_of_halfspeed (s1 s2 : GState) (dt : ℚ)
    (h1 : s1.gameRunning = true) (h2 : s2.gameRunning = true)
    (hs : s1.score = s2.score) :
    (s1.update_scoring dt).score = (s2.update_scoring dt).score ∧
    (s1.update_scoring dt).score = s1.score + baseSpeedOf s1.score * dt ∧
    (0 ≤ dt → 0 ≤ s1.score → s1.score ≤ (s1.update_scoring dt).score) := by
  have key : ∀ s : GState, s.gameRunning = true →
      (s.update_scoring dt).score = s.score + baseSpeedOf s.score * dt := by
    intro s h
    unfold GState.update_scoring baseSpeedOf
    rw [if_pos h]
    rfl
  refine ⟨?_, key s1 h1, ?_⟩
  · rw [key s1 h1, key s2 h2, hs]
  · intro hdt hscore
    rw [key s1 h1]
    have hbs : 0 ≤ baseSpeedOf s1.score := by
      unfold baseSpeedOf START_SPEED MAX_SPEED SPEED_MODIFIER
      dsimp only
      split
      · norm_num
      · have h50 : 0 ≤ s1.score / (50 : ℚ) := by positivity
        linarith
    nlinarith [mul_nonneg hbs hdt]

/-- Witness for C6: the states `gs_half` (halfspeed active) and `gs_plain`
(no powerups) share score 100; one tick of one second yields the same score
302 in both, at least the old score. -/
theorem score_independent_of_halfspeed_witness :
    (gs_half.update_scoring 1).score = (gs_plain.update_scoring 1).score ∧
    (gs_half.update_scoring 1).score = gs_half.score + baseSpeedOf gs_half.score * 1 ∧
    gs_half.score ≤ (gs_half.update_scoring 1).score := by
  have h := score_independent_of_halfspeed gs_half gs_plain 1 rfl rfl rfl
  exact ⟨h.1, h.2.1, h.2.2 (by norm_num) (by decide)⟩

/-- Claim C8: activating doublegold sets `coin_multiplier` to 2 and records
the duration under `"doublegold"` in `active_powerups`; `update_powerups`
decrements the remaining time by `delta_time` and, once it reaches zero or
below, deletes the entry and resets `coin_multiplier` to 1, while a
still-positive remainder is kept; and both `activate_powerup` (which
overwrites an existing entry in place) and `update_powerups` preserve
distinctness of effect names, so at most one instance of each effect is
ever active. -/
theorem doublegold_powerup_lifecycle (s : GState) (d dt t : ℚ) (eff pt : String)
    (hnd : (s.activePowerups.map Prod.fst).Nodup) :
    ((s.activate_powerup "doublegold" d pt).coinMultiplier = 2 ∧
      dictGet? (s.activate_powerup "doublegold" d pt).activePowerups "doublegold" =
        some d) ∧
    (dictGet? s.activePowerups "doublegold" = some t →
      (t - dt ≤ 0 →
        dictGet? (s.update_powerups dt).activePowerups "doublegold" = none ∧
        (s.update_powerups dt).coinMultiplier = 1) ∧
      (0 < t - dt →
        dictGet? (s.update_powerups dt).activePowerups "doublegold" =
          some (t - dt))) ∧
    ((s.activate_powerup eff d pt).activePowerups.map Prod.fst).Nodup ∧
    ((s.update_powerups dt).activePowerups.map Prod.fst).Nodup := by
  have hact : s.activate_powerup "doublegold" d pt =
      { s with activePowerups := dictSet s.activePowerups "doublegold" d,
               coinMultiplier := 2 } := by
    unfold GState.activate_powerup
    rw [if_neg (by decide), if_pos rfl]
  have hndstep : ((s.activePowerups.map fun kv => (kv.1, kv.2 - dt)).map Prod.fst).Nodup := by
    rw [keys_map_sub]
    exact hnd
  refine ⟨⟨by rw [hact], by rw [hact]; exact dictGet?_dictSet_self _ _ _⟩, ?_, ?_, ?_⟩
  · intro hget
    obtain ⟨pr0, hfind, hsnd⟩ := Option.map_eq_some'.mp hget
    have hfst : pr0.1 = "doublegold" := by
      have := List.find?_some hfind
      simpa using this
    have hpr0 : pr0 = ("doublegold", t) := by
      obtain ⟨p1, p2⟩ := pr0
      simp_all
    subst hpr0
    have hfind2 : (s.activePowerups.map fun kv => (kv.1, kv.2 - dt)).find?
        (fun kv => kv.1 == "doublegold") = some ("doublegold", t - dt) := by
      rw [find?_map_sub, hfind]
      rfl
    constructor
    · intro hexp
      constructor
      · have hfilter := find?_filter_of_keys_nodup _ "doublegold" ("doublegold", t - dt)
          (fun kv => decide (0 < kv.2)) hndstep hfind2
        rw [if_neg (by simpa using not_lt.mpr hexp)] at hfilter
        rw [update_powerups_activePowerups]
        unfold dictGet?
        rw [hfilter]
        rfl
      · have hmem : ("doublegold", t - dt) ∈
            (s.activePowerups.map fun kv => (kv.1, kv.2 - dt)) :=
          List.mem_of_find?_eq_some hfind2
        have hmemf : ("doublegold", t - dt) ∈
            ((s.activePowerups.map fun kv => (kv.1, kv.2 - dt)).filter
              fun kv => decide (kv.2 ≤ 0)) :=
          List.mem_filter.mpr ⟨hmem, by simpa using hexp⟩
        have hany : (((s.activePowerups.map fun kv => (kv.1, kv.2 - dt)).filter
              fun kv => decide (kv.2 ≤ 0)).map Prod.fst).any
              (fun n => n == "doublegold") = true := by
          rw [List.any_eq_true]
          exact ⟨"doublegold", List.mem_map.mpr ⟨_, hmemf, rfl⟩, by simp⟩
        rw [update_powerups_coinMultiplier, hany]
        rfl
    · intro hlt
      have hfilter := find?_filter_of_keys_nodup _ "doublegold" ("doublegold", t - dt)
        (fun kv => decide (0 < kv.2)) hndstep hfind2
      rw [if_pos (by simpa using hlt)] at hfilter
      rw [update_powerups_activePowerups]
      unfold dictGet?
      rw [hfilter]
      rfl
  · unfold GState.activate_powerup
    by_cases h1 : eff = "halfspeed"
    · rw [if_pos h1]
      exact dictSet_keys_nodup _ _ _ hnd
    · rw [if_neg h1]
      by_cases h2 : eff = "doublegold"
      · rw [if_pos h2]
        exact dictSet_keys_nodup _ _ _ hnd
      · rw [if_neg h2]
        exact hnd
  · rw [update_powerups_activePowerups]
    exact List.Nodup.sublist ((List.filter_sublist _).map Prod.fst) hndstep

/-- Witness for C8 at the concrete state `gs_gold` (doublegold active with
3 seconds left, multiplier 2): re-activating with duration 10 overwrites the
entry and keeps multiplier 2; a 4-second tick expires the effect, deleting
the entry and resetting the multiplier to 1, with the effect names still
distinct. -/
theorem doublegold_powerup_lifecycle_witness :
    (gs_gold.activate_powerup "doublegold" 10 "doublegold").coinMultiplier = 2 ∧
    dictGet? (gs_gold.activate_powerup "doublegold" 10 "doublegold").activePowerups
      "doublegold" = some 10 ∧
    dictGet? (gs_gold.update_powerups 4).activePowerups "doublegold" = none ∧
    (gs_gold.update_powerups 4).coinMultiplier = 1 ∧
    ((gs_gold.update_powerups 4).activePowerups.map Prod.fst).Nodup := by
  have h := doublegold_powerup_lifecycle gs_gold 10 4 3 "godmode" "doublegold" (by decide)
  have hB := h.2.1 (by decide)
  exact ⟨h.1.1, h.1.2, (hB.1 (by norm_num)).1, (hB.1 (by norm_num)).2, h.2.2.2⟩
